import Mathlib

/-!
Shallow embedding of the btl.run API lambda (Rust):
 - `src/backend/shared/src/lib.rs`: the `ApiResponse<T>` envelope, the
   `AppError` taxonomy with its `status_code` mapping, and `HealthResponse`.
 - `src/backend/functions/api/src/main.rs`: the request dispatcher and the
   three handlers (`health_handler`, `root_handler`, `not_found_handler`),
   together with the `json_response` helper.

JSON values are modelled by an explicit inductive `Json`; serde's serializer
is modelled by `Json.render` (string rendering, with serde_json's exact
escaping rules) and the derived `Serialize`/`Deserialize` impls of
`ApiResponse` by `ApiResponse.toJson` / `ApiResponse.fromJson`.
The build-time constant `env!("CARGO_PKG_VERSION")` is not part of the
source tree, so every definition that mentions it is parameterised by a
`version : String` argument.
-/

namespace BtlRun

/-- JSON values, as produced by serde_json: an object is a sequence of
key/value pairs in serialization order. -/
inductive Json where
  | null : Json
  | bool (b : Bool) : Json
  | num (n : Int) : Json
  | str (s : String) : Json
  | arr (elems : List Json) : Json
  | obj (fields : List (String × Json)) : Json

/-- Hex digit characters as emitted by serde_json's escape writer
(lowercase). -/
def hexDigit (n : Nat) : String :=
  match n with
  | 0 => "0" | 1 => "1" | 2 => "2" | 3 => "3"
  | 4 => "4" | 5 => "5" | 6 => "6" | 7 => "7"
  | 8 => "8" | 9 => "9" | 10 => "a" | 11 => "b"
  | 12 => "c" | 13 => "d" | 14 => "e" | _ => "f"

/-- serde_json's escaping of a single character inside a JSON string:
`"` and `\` are backslash-escaped, control characters below 0x20 get their
short escapes (`\b \t \n \f \r`) or a `\u00XX` form, everything else is
written as itself. -/
def escapeJsonChar (c : Char) : String :=
  if c = '"' then "\\\""
  else if c = '\\' then "\\\\"
  else if c.toNat < 0x20 then
    match c.toNat with
    | 0x08 => "\\b"
    | 0x09 => "\\t"
    | 0x0A => "\\n"
    | 0x0C => "\\f"
    | 0x0D => "\\r"
    | n => "\\u00" ++ hexDigit (n / 16) ++ hexDigit (n % 16)
  else String.singleton c

/-- Escape a character list, concatenating the per-character escapes. -/
def escapeList : List Char → String
  | [] => ""
  | c :: cs => escapeJsonChar c ++ escapeList cs

/-- serde_json's rendering of a string literal: quotes around the escaped
character sequence. -/
def renderJsonString (s : String) : String :=
  "\"" ++ escapeList s.data ++ "\""

mutual

/-- serde_json's `to_string` on a JSON value (compact form: no spaces). -/
def Json.render : Json → String
  | .null => "null"
  | .bool true => "true"
  | .bool false => "false"
  | .num n => toString n
  | .str s => renderJsonString s
  | .arr xs => "[" ++ Json.renderElems xs ++ "]"
  | .obj fs => "\x7b" ++ Json.renderFields fs ++ "\x7d"

/-- Comma-separated rendering of array elements. -/
def Json.renderElems : List Json → String
  | [] => ""
  | [x] => x.render
  | x :: y :: xs => x.render ++ "," ++ Json.renderElems (y :: xs)

/-- Comma-separated rendering of object fields as `"key":value`. -/
def Json.renderFields : List (String × Json) → String
  | [] => ""
  | [(k, v)] => renderJsonString k ++ ":" ++ v.render
  | (k, v) :: f :: fs =>
      renderJsonString k ++ ":" ++ v.render ++ "," ++ Json.renderFields (f :: fs)

end

/-- `ApiResponse<T>` from `src/backend/shared/src/lib.rs`: the uniform
response envelope with a `success` flag and optional `data`/`error` fields. -/
structure ApiResponse (T : Type) where
  success : Bool
  data : Option T
  error : Option String

/-- `ApiResponse::success(data)`: a successful response carrying `data`.
(Named `mkSuccess` because `success` is taken by the field projection.) -/
def ApiResponse.mkSuccess {T : Type} (data : T) : ApiResponse T :=
  { success := true, data := some data, error := none }

/-- `ApiResponse::error(message)`: an error response carrying `message`. -/
def ApiResponse.mkError {T : Type} (message : String) : ApiResponse T :=
  { success := false, data := none, error := some message }

/-- The derived `Serialize` impl of `ApiResponse<T>`: fields in declaration
order, with `data` and `error` skipped when `None`
(`#[serde(skip_serializing_if = "Option::is_none")]`). `toJ` stands for the
`Serialize` impl of the payload type `T`. -/
def ApiResponse.toJson {T : Type} (toJ : T → Json) (r : ApiResponse T) : Json :=
  .obj ([("success", Json.bool r.success)]
    ++ (match r.data with
        | some d => [("data", toJ d)]
        | none => [])
    ++ (match r.error with
        | some e => [("error", Json.str e)]
        | none => []))

/-- First value bound to key `k` in an object's field list (serde reads the
first occurrence of each field). -/
def lookupField (fs : List (String × Json)) (k : String) : Option Json :=
  (fs.find? (fun kv => kv.1 = k)).map (fun kv => kv.2)

/-- serde's deserialization of an `Option`-typed field: an absent key or an
explicit `null` gives `None`, any other value is fed to the payload
deserializer. The outer `Option` is the failure monad. -/
def parseOptField {α : Type} (parse : Json → Option α) :
    Option Json → Option (Option α)
  | none => some none
  | some Json.null => some none
  | some j => (parse j).map some

/-- Deserializer for JSON strings (serde's `String` impl). -/
def parseString : Json → Option String
  | .str s => some s
  | _ => none

/-- Deserializer for JSON booleans (serde's `bool` impl). -/
def parseBool : Json → Option Bool
  | .bool b => some b
  | _ => none

/-- The derived `Deserialize` impl of `ApiResponse<T>`: `success` is a
required `bool`; `data` and `error` are `Option` fields defaulting to `None`
when the key is absent; unknown keys are ignored. `fromJ` stands for the
`Deserialize` impl of the payload type `T`. -/
def ApiResponse.fromJson {T : Type} (fromJ : Json → Option T) :
    Json → Option (ApiResponse T)
  | .obj fs => do
      let sJ ← lookupField fs "success"
      let s ← parseBool sJ
      let d ← parseOptField fromJ (lookupField fs "data")
      let e ← parseOptField parseString (lookupField fs "error")
      some { success := s, data := d, error := e }
  | _ => none

/-- `AppError` from `src/backend/shared/src/lib.rs`. `Unauthorized` is the
only variant carrying no message. -/
inductive AppError where
  | NotFound (msg : String)
  | BadRequest (msg : String)
  | Internal (msg : String)
  | Unauthorized
deriving DecidableEq

/-- `AppError::status_code`: the HTTP status for each error kind. -/
def AppError.status_code : AppError → Nat
  | .NotFound _ => 404
  | .BadRequest _ => 400
  | .Internal _ => 500
  | .Unauthorized => 401

/-- The `Display` impl derived by thiserror from the `#[error("...")]`
attributes on `AppError`. -/
def AppError.display : AppError → String
  | .NotFound m => "Not found: " ++ m
  | .BadRequest m => "Bad request: " ++ m
  | .Internal m => "Internal error: " ++ m
  | .Unauthorized => "Unauthorized"

/-- `HealthResponse` from `src/backend/shared/src/lib.rs`. -/
structure HealthResponse where
  status : String
  version : String

/-- `HealthResponse::default()`: status `"healthy"` and the build's package
version. The `env!("CARGO_PKG_VERSION")` constant is a build input outside
the source tree, so it is passed in as `version`. -/
def HealthResponse.default (version : String) : HealthResponse :=
  { status := "healthy", version := version }

/-- The derived `Serialize` impl of `HealthResponse`: fields in declaration
order. -/
def HealthResponse.toJson (h : HealthResponse) : Json :=
  .obj [("status", Json.str h.status), ("version", Json.str h.version)]

/-- An HTTP response as built by `Response::builder()` in
`src/backend/functions/api/src/main.rs`: a status code, the headers in the
order they are attached, and the body string. -/
structure Response where
  status : Nat
  headers : List (String × String)
  body : String

/-- The four headers attached by `json_response`, in source order. -/
def fixedHeaders : List (String × String) :=
  [("content-type", "application/json"),
   ("access-control-allow-origin", "*"),
   ("access-control-allow-methods", "GET, POST, PUT, DELETE, OPTIONS"),
   ("access-control-allow-headers", "Content-Type, Authorization")]

/-- `serde_json::to_string(body)?` inside `json_response`. The Rust call
returns a `Result`; on tree-shaped values such as the ones modelled by
`Json` its serializer has no failing branch (failures exist only for
custom `Serialize` impls or non-string map keys), so the model always takes
the `Ok` path while keeping the fallible type of the source. -/
def serdeToString (j : Json) : Except String String :=
  .ok j.render

/-- `json_response(status, &body)`: serialize the body and attach the fixed
status and headers. The `?` on serialization propagates its error. -/
def json_response (status : Nat) (body : Json) : Except String Response :=
  match serdeToString body with
  | .error e => .error e
  | .ok json => .ok { status := status, headers := fixedHeaders, body := json }

/-- `health_handler()`: wrap `HealthResponse::default()` in a success
envelope and respond with status 200. -/
def health_handler (version : String) : Except String Response :=
  json_response 200
    ((ApiResponse.mkSuccess (HealthResponse.default version)).toJson
      HealthResponse.toJson)

/-- The `serde_json::json!` object built inside `root_handler`, with fields
in the order written in the source. -/
def rootInfo (version : String) : Json :=
  .obj [("name", Json.str "btl.run API"),
        ("version", Json.str version),
        ("endpoints", Json.arr [Json.str "/health", Json.str "/api/health"])]

/-- `root_handler()`: wrap the info object in a success envelope and respond
with status 200. The payload type is `serde_json::Value`, whose `Serialize`
impl is the identity on `Json`. -/
def root_handler (version : String) : Except String Response :=
  json_response 200 ((ApiResponse.mkSuccess (rootInfo version)).toJson id)

/-- `not_found_handler(path)`: wrap `format!("Not found: {}", path)` in an
error envelope (payload type `()`, which never serializes since `data` is
`None`) and respond with status 404. -/
def not_found_handler (path : String) : Except String Response :=
  json_response 404
    ((ApiResponse.mkError (T := Unit) ("Not found: " ++ path)).toJson
      (fun _ => Json.null))

/-- `handler(event)`: dispatch on the `(method, path)` pair exactly as the
Rust `match` does. The tracing side effect has no observable effect on the
response and is not modelled. -/
def handler (version method path : String) : Except String Response :=
  if method = "GET" ∧ (path = "/health" ∨ path = "/api/health") then
    health_handler version
  else if method = "GET" ∧ (path = "/" ∨ path = "/api") then
    root_handler version
  else
    not_found_handler path

/-- Characters the `http` crate accepts in the path of a parsed `Uri`
(the type of `event.uri()`), per `PathAndQuery::from_shared`: the bytes
0x21, 0x24–0x3B, 0x3D, 0x40–0x5F, 0x61–0x7A, 0x7C and 0x7E, plus a
deliberate lenient arm accepting the double quote and both braces (sent
unencoded by some clients). Note this set contains `"` (0x22) and `\`
(0x5C), which serde_json escapes, so such characters can reach `handler`
inside a path. -/
def isValidUriPathChar (c : Char) : Bool :=
  decide (c.toNat = 0x21) ||
  (decide (0x24 ≤ c.toNat) && decide (c.toNat ≤ 0x3B)) ||
  decide (c.toNat = 0x3D) ||
  (decide (0x40 ≤ c.toNat) && decide (c.toNat ≤ 0x5F)) ||
  (decide (0x61 ≤ c.toNat) && decide (c.toNat ≤ 0x7A)) ||
  decide (c.toNat = 0x7C) || decide (c.toNat = 0x7E) ||
  decide (c.toNat = 0x22) || decide (c.toNat = 0x7B) ||
  decide (c.toNat = 0x7D)

/-- Characters that serde_json writes through unescaped. -/
def jsonPlainChar (c : Char) : Bool :=
  c != '"' && c != '\\' && decide (0x20 ≤ c.toNat)

/-- The serde `Serialize` impl of the unit type `()`: it serializes to
`null` (relevant because `not_found_handler` instantiates
`ApiResponse<()>`). -/
def unitToJson : Unit → Json := fun _ => Json.null

/-- The serde `Deserialize` impl of the unit type `()`: it accepts `null`. -/
def unitFromJson : Json → Option Unit
  | .null => some ()
  | _ => none

/-- The invariant of §3 of the spec on an envelope: exactly one of
`data`/`error` is present, and `success` holds exactly when `data` is the
present one. -/
def envelopeInvariant {T : Type} (r : ApiResponse T) : Prop :=
  (r.data.isSome = true ↔ r.error.isSome = false) ∧
  (r.success = true ↔ (r.data.isSome = true ∧ r.error.isSome = false))

/-! ### Helper lemmas -/

theorem escapeJsonChar_plain {c : Char} (h : jsonPlainChar c = true) :
    escapeJsonChar c = String.singleton c := by
  simp only [jsonPlainChar, Bool.and_eq_true, bne_iff_ne, ne_eq,
    decide_eq_true_eq] at h
  obtain ⟨⟨h1, h2⟩, h3⟩ := h
  unfold escapeJsonChar
  rw [if_neg h1, if_neg h2, if_neg (by omega)]

theorem escapeList_append (a b : List Char) :
    escapeList (a ++ b) = escapeList a ++ escapeList b := by
  induction a with
  | nil => rfl
  | cons c cs ih =>
      show escapeJsonChar c ++ escapeList (cs ++ b) = _
      rw [ih, ← String.append_assoc]
      rfl

theorem escapeList_plain {l : List Char}
    (h : ∀ c ∈ l, jsonPlainChar c = true) : escapeList l = String.mk l := by
  induction l with
  | nil => rfl
  | cons c cs ih =>
      show escapeJsonChar c ++ escapeList cs = _
      rw [escapeJsonChar_plain (h c (by simp)),
        ih (fun c hc => h c (by simp [hc]))]
      rfl

theorem renderJsonString_plain {s : String}
    (h : s.data.all jsonPlainChar = true) :
    renderJsonString s = "\"" ++ s ++ "\"" := by
  rw [renderJsonString, escapeList_plain (fun c hc => List.all_eq_true.mp h c hc)]

theorem mkSuccess_toJson {T : Type} (toJ : T → Json) (x : T) :
    (ApiResponse.mkSuccess x).toJson toJ
      = Json.obj [("success", Json.bool true), ("data", toJ x)] := rfl

theorem mkError_toJson {T : Type} (toJ : T → Json) (msg : String) :
    (ApiResponse.mkError (T := T) msg).toJson toJ
      = Json.obj [("success", Json.bool false), ("error", Json.str msg)] := rfl

theorem render_error_obj (msg : String) :
    (Json.obj [("success", Json.bool false), ("error", Json.str msg)]).render
      = "\x7b\"success\":false,\"error\":" ++ renderJsonString msg ++ "\x7d" := by
  have hs : renderJsonString "success" = "\"success\"" := by decide
  have he : renderJsonString "error" = "\"error\"" := by decide
  simp only [Json.render, Json.renderFields, hs, he]
  simp only [← String.append_assoc]
  congr 1

theorem render_health_obj (v : String) :
    (Json.obj [("success", Json.bool true),
        ("data", Json.obj [("status", Json.str "healthy"),
                           ("version", Json.str v)])]).render
      = "\x7b\"success\":true,\"data\":\x7b\"status\":\"healthy\",\"version\":"
          ++ renderJsonString v ++ "\x7d\x7d" := by
  have hs : renderJsonString "success" = "\"success\"" := by decide
  have hd : renderJsonString "data" = "\"data\"" := by decide
  have hst : renderJsonString "status" = "\"status\"" := by decide
  have hh : renderJsonString "healthy" = "\"healthy\"" := by decide
  have hv : renderJsonString "version" = "\"version\"" := by decide
  simp only [Json.render, Json.renderFields, hs, hd, hst, hh, hv]
  simp only [← String.append_assoc]
  rw [String.append_assoc,
    (by decide : ("\x7d" : String) ++ "\x7d" = "\x7d\x7d")]
  congr 1

theorem not_found_handler_eq (path : String) :
    not_found_handler path
      = .ok { status := 404, headers := fixedHeaders,
              body := "\x7b\"success\":false,\"error\":\"Not found: "
                        ++ escapeList path.data ++ "\"\x7d" } := by
  show Except.ok (Response.mk 404 fixedHeaders
      (((ApiResponse.mkError (T := Unit)
        ("Not found: " ++ path)).toJson (fun _ => Json.null)).render)) = _
  rw [mkError_toJson, render_error_obj, renderJsonString,
    String.data_append, escapeList_append,
    (by decide : escapeList "Not found: ".data = "Not found: ")]
  refine congrArg _ (congrArg _ ?_)
  simp only [← String.append_assoc]
  rw [String.append_assoc,
    (by decide : ("\"" : String) ++ "\x7d" = "\"\x7d")]
  congr 1

theorem health_handler_eq (version : String)
    (h : version.data.all jsonPlainChar = true) :
    health_handler version
      = .ok { status := 200, headers := fixedHeaders,
              body := "\x7b\"success\":true,\"data\":\x7b\"status\":\"healthy\",\"version\":\""
                        ++ version ++ "\"\x7d\x7d" } := by
  show Except.ok (Response.mk 200 fixedHeaders
      ((Json.obj [("success", Json.bool true),
        ("data", Json.obj [("status", Json.str "healthy"),
                           ("version", Json.str version)])]).render)) = _
  rw [render_health_obj, renderJsonString_plain h]
  refine congrArg _ (congrArg _ ?_)
  simp only [← String.append_assoc]
  rw [String.append_assoc,
    (by decide : ("\"" : String) ++ "\x7d\x7d" = "\"\x7d\x7d")]
  congr 1

theorem parseOptField_some {α : Type} (parse : Json → Option α) {j : Json}
    (hj : j ≠ Json.null) : parseOptField parse (some j) = (parse j).map some := by
  cases j with
  | null => exact absurd rfl hj
  | bool b => rfl
  | num n => rfl
  | str s => rfl
  | arr xs => rfl
  | obj fs => rfl

theorem fromJson_success_obj {T : Type} (fromJ : Json → Option T) (j : Json)
    (hj : j ≠ Json.null) :
    ApiResponse.fromJson fromJ
        (Json.obj [("success", Json.bool true), ("data", j)])
      = (fromJ j).map
          (fun d => { success := true, data := some d, error := none }) := by
  show ((some (Json.bool true)).bind fun sJ => (parseBool sJ).bind fun s =>
      (parseOptField fromJ (some j)).bind fun d =>
      (parseOptField parseString none).bind fun e =>
      some (ApiResponse.mk s d e)) = _
  rw [parseOptField_some fromJ hj]
  cases hfj : fromJ j with
  | none => rfl
  | some d => rfl

theorem fromJson_error_obj {T : Type} (fromJ : Json → Option T) (msg : String) :
    ApiResponse.fromJson fromJ
        (Json.obj [("success", Json.bool false), ("error", Json.str msg)])
      = some (ApiResponse.mkError msg) := rfl

theorem handler_not_found (version method path : String)
    (h : ¬(method = "GET" ∧ (path = "/health" ∨ path = "/api/health" ∨
            path = "/" ∨ path = "/api"))) :
    handler version method path = not_found_handler path := by
  unfold handler
  rw [if_neg (fun hc => h ⟨hc.1, Or.elim hc.2 (fun h1 => Or.inl h1)
        (fun h1 => Or.inr (Or.inl h1))⟩),
     if_neg (fun hc => h ⟨hc.1, Or.elim hc.2 (fun h1 => Or.inr (Or.inr (Or.inl h1)))
        (fun h1 => Or.inr (Or.inr (Or.inr h1)))⟩)]

/-! ### Claim theorems -/

/-- C1: for every payload `x`, `ApiResponse::success(x)` produces an
envelope with `success=true`, `data=x`, `error=None`, and its JSON
serialization is an object holding only the `success` and `data` keys (the
`error` key is omitted entirely, with no `null` literal); for every message
`msg`, `ApiResponse::error(msg)` produces `success=false`, `data=None`,
`error=msg`, and its serialization holds only the `success` and `error`
keys (the `data` key is omitted entirely). -/
theorem C1_envelope_constructors {T : Type} (toJ : T → Json) (x : T)
    (msg : String) :
    (ApiResponse.mkSuccess x).success = true ∧
    (ApiResponse.mkSuccess x).data = some x ∧
    (ApiResponse.mkSuccess x).error = none ∧
    (ApiResponse.mkSuccess x).toJson toJ
      = Json.obj [("success", Json.bool true), ("data", toJ x)] ∧
    (ApiResponse.mkError (T := T) msg).success = false ∧
    (ApiResponse.mkError (T := T) msg).data = none ∧
    (ApiResponse.mkError (T := T) msg).error = some msg ∧
    (ApiResponse.mkError (T := T) msg).toJson toJ
      = Json.obj [("success", Json.bool false), ("error", Json.str msg)] :=
  ⟨rfl, rfl, rfl, rfl, rfl, rfl, rfl, rfl⟩

/-- C2: every envelope built by either constructor satisfies the invariant
that exactly one of `data`/`error` is present and `success` is true exactly
when `data` is present and `error` absent. -/
theorem C2_envelope_invariant {T : Type} (x : T) (msg : String) :
    envelopeInvariant (ApiResponse.mkSuccess x) ∧
    envelopeInvariant (ApiResponse.mkError (T := T) msg) := by
  constructor <;>
    simp [envelopeInvariant, ApiResponse.mkSuccess, ApiResponse.mkError]

/-- C3: `AppError::status_code` maps `NotFound` to 404, `BadRequest` to
400, `Internal` to 500 and `Unauthorized` to 401, and is total: no other
status is possible on the four-variant taxonomy. (`Unauthorized` is the
nullary constructor of `AppError`, carrying no message.) -/
theorem C3_status_code_total (m : String) (e : AppError) :
    AppError.status_code (.NotFound m) = 404 ∧
    AppError.status_code (.BadRequest m) = 400 ∧
    AppError.status_code (.Internal m) = 500 ∧
    AppError.status_code .Unauthorized = 401 ∧
    (AppError.status_code e = 404 ∨ AppError.status_code e = 400 ∨
     AppError.status_code e = 500 ∨ AppError.status_code e = 401) := by
  refine ⟨rfl, rfl, rfl, rfl, ?_⟩
  cases e with
  | NotFound m => exact Or.inl rfl
  | BadRequest m => exact Or.inr (Or.inl rfl)
  | Internal m => exact Or.inr (Or.inr (Or.inl rfl))
  | Unauthorized => exact Or.inr (Or.inr (Or.inr rfl))

/-- C4: the dispatcher selects exactly one handler and returns its output
unchanged: `GET /health` and `GET /api/health` give the health handler's
output, `GET /` and `GET /api` give the root handler's output, and every
other `(method, path)` pair — including a non-GET method on a matched path —
gives the not-found handler's output on the original path string. -/
theorem C4_dispatch (version method path : String) :
    handler version "GET" "/health" = health_handler version ∧
    handler version "GET" "/api/health" = health_handler version ∧
    handler version "GET" "/" = root_handler version ∧
    handler version "GET" "/api" = root_handler version ∧
    (¬(method = "GET" ∧ (path = "/health" ∨ path = "/api/health" ∨
        path = "/" ∨ path = "/api")) →
      handler version method path = not_found_handler path) := by
  refine ⟨?_, ?_, ?_, ?_, handler_not_found version method path⟩
  · unfold handler; rw [if_pos ⟨rfl, Or.inl rfl⟩]
  · unfold handler; rw [if_pos ⟨rfl, Or.inr rfl⟩]
  · unfold handler; rw [if_neg (by decide), if_pos ⟨rfl, Or.inl rfl⟩]
  · unfold handler; rw [if_neg (by decide), if_pos ⟨rfl, Or.inr rfl⟩]

/-- C4 witness: `POST /health` is dispatched to the not-found handler
(the method is matched, not just the path). -/
theorem C4_dispatch_witness :
    handler "0.1.0" "POST" "/health" = not_found_handler "/health" :=
  (C4_dispatch "0.1.0" "POST" "/health").2.2.2.2 (by decide)

/-- C5 counterexample: the `http` crate's path parser accepts the double
quote, so the path `/a"b` can reach `handler` unencoded; there the body
carries the serde-escaped path (`\"` for the quote) and is not the claimed
literal with the raw path inserted verbatim. -/
theorem C5_counterexample :
    ("/a\"b" : String).data.all isValidUriPathChar = true ∧
    handler "0.1.0" "POST" "/a\"b"
      = .ok { status := 404, headers := fixedHeaders,
              body := "\x7b\"success\":false,\"error\":\"Not found: /a\\\"b\"\x7d" } ∧
    "\x7b\"success\":false,\"error\":\"Not found: /a\\\"b\"\x7d"
      ≠ "\x7b\"success\":false,\"error\":\"Not found: "
          ++ "/a\"b" ++ "\"\x7d" := by
  refine ⟨by decide, ?_, by decide⟩
  rw [handler_not_found "0.1.0" "POST" "/a\"b" (by decide),
    not_found_handler_eq]
  refine congrArg _ (congrArg _ ?_)
  decide

/-- C5 (amended): for every `(method, path)` pair outside the routing
table, the response has status 404 and body exactly
`{"success":false,"error":"Not found: <path>"}` where the path appears in
its JSON-escaped form; it appears verbatim exactly when it contains no
character serde escapes (the escaping is forced by the counterexample,
since the `http` crate admits `"` and `\` in parsed paths). -/
theorem C5_not_found_response (version method path : String)
    (hmiss : ¬(method = "GET" ∧ (path = "/health" ∨ path = "/api/health" ∨
        path = "/" ∨ path = "/api"))) :
    ∃ r : Response, handler version method path = .ok r ∧ r.status = 404 ∧
      r.body = "\x7b\"success\":false,\"error\":\"Not found: "
                 ++ escapeList path.data ++ "\"\x7d" ∧
      (path.data.all jsonPlainChar = true → escapeList path.data = path) :=
  ⟨_, (handler_not_found version method path hmiss).trans
        (not_found_handler_eq path), rfl, rfl,
    fun h => escapeList_plain (fun c hc => List.all_eq_true.mp h c hc)⟩

/-- C5 witness: the unmatched request `POST /nope` yields status 404 and
the not-found body for `/nope`. -/
theorem C5_not_found_response_witness :
    ∃ r : Response, handler "0.1.0" "POST" "/nope" = .ok r ∧ r.status = 404 ∧
      r.body = "\x7b\"success\":false,\"error\":\"Not found: "
                 ++ escapeList ("/nope" : String).data ++ "\"\x7d" ∧
      (("/nope" : String).data.all jsonPlainChar = true →
        escapeList ("/nope" : String).data = "/nope") :=
  C5_not_found_response "0.1.0" "POST" "/nope" (by decide)

/-- C6 counterexample: the round-trip fails for the unit payload (a type
the code itself instantiates, in `ApiResponse<()>`). The unit codec itself
round-trips (`()` serializes to `null` and deserializes back), but
`success(())` serializes with `data` equal to the JSON `null` literal, and
serde reads a `null` `Option` field back as `None`: the recovered envelope
has `data = None`, not `data = Some(())`. -/
theorem C6_roundtrip_counterexample :
    unitFromJson (unitToJson ()) = some () ∧
    (ApiResponse.fromJson unitFromJson
        ((ApiResponse.mkSuccess ()).toJson unitToJson)).map (fun r => r.data)
      = some none ∧
    some () ≠ (none : Option Unit) :=
  ⟨rfl, rfl, by decide⟩

/-- C6 (amended): for every payload codec that round-trips and never
serializes a payload to the JSON `null` literal, deserializing the
serialization of `ApiResponse::success(x)` recovers the envelope (hence its
`data` equals `x`), and deserializing the serialization of
`ApiResponse::error(msg)` recovers the envelope (hence its `error` equals
`msg`); the `null`-payload restriction is forced by the counterexample. -/
theorem C6_roundtrip_amended {T : Type} (toJ : T → Json)
    (fromJ : Json → Option T) (hcodec : ∀ y, fromJ (toJ y) = some y)
    (x : T) (msg : String) (hnn : toJ x ≠ Json.null) :
    ApiResponse.fromJson fromJ ((ApiResponse.mkSuccess x).toJson toJ)
      = some (ApiResponse.mkSuccess x) ∧
    ApiResponse.fromJson fromJ
        ((ApiResponse.mkError (T := T) msg).toJson toJ)
      = some (ApiResponse.mkError msg) := by
  constructor
  · rw [mkSuccess_toJson, fromJson_success_obj fromJ (toJ x) hnn, hcodec x]
    rfl
  · rw [mkError_toJson]
    exact fromJson_error_obj fromJ msg

/-- C6 witness: the round-trip at the string payload `"pay"` and the error
message `"oops"`, with the string codec. -/
theorem C6_roundtrip_amended_witness :
    ApiResponse.fromJson parseString
        ((ApiResponse.mkSuccess "pay").toJson Json.str)
      = some (ApiResponse.mkSuccess "pay") ∧
    ApiResponse.fromJson parseString
        ((ApiResponse.mkError (T := String) "oops").toJson Json.str)
      = some (ApiResponse.mkError "oops") :=
  C6_roundtrip_amended Json.str parseString (fun _ => rfl) "pay" "oops"
    (fun h => Json.noConfusion h)

/-- C7: the health handler never fails and returns status 200 with body
`{"success":true,"data":{"status":"healthy","version":"<build version>"}}`,
the version string being the build's package version (a build input,
passed in as `version`; it is assumed free of JSON-escaped characters, as
any Cargo package version is). -/
theorem C7_health_response (version : String)
    (hv : version.data.all jsonPlainChar = true) :
    health_handler version
      = .ok { status := 200, headers := fixedHeaders,
              body := "\x7b\"success\":true,\"data\":\x7b\"status\":\"healthy\",\"version\":\""
                        ++ version ++ "\"\x7d\x7d" } :=
  health_handler_eq version hv

/-- C7 witness: the health response at the concrete build version
`0.1.0`. -/
theorem C7_health_response_witness :
    health_handler "0.1.0"
      = .ok { status := 200, headers := fixedHeaders,
              body := "\x7b\"success\":true,\"data\":\x7b\"status\":\"healthy\",\"version\":\""
                        ++ "0.1.0" ++ "\"\x7d\x7d" } :=
  C7_health_response "0.1.0" (by decide)

/-- C8: every response, on every route, carries exactly the four fixed
headers attached by `json_response`: `content-type`,
`access-control-allow-origin`, `access-control-allow-methods` and
`access-control-allow-headers`, with the values from the source. -/
theorem C8_fixed_headers (version method path : String) :
    ∃ r : Response, handler version method path = .ok r ∧
      r.headers =
        [("content-type", "application/json"),
         ("access-control-allow-origin", "*"),
         ("access-control-allow-methods", "GET, POST, PUT, DELETE, OPTIONS"),
         ("access-control-allow-headers", "Content-Type, Authorization")] := by
  unfold handler
  split_ifs <;> exact ⟨_, rfl, rfl⟩

/-- C9: every handler succeeds deterministically on every request: the
health, root and not-found handlers each return `Ok`, and so does the
dispatcher, since the only fallible step — JSON serialization inside
`json_response` — never errs on the envelope shapes the handlers
serialize. -/
theorem C9_handlers_never_fail (version method path : String) :
    (health_handler version).isOk = true ∧
    (root_handler version).isOk = true ∧
    (not_found_handler path).isOk = true ∧
    (handler version method path).isOk = true := by
  refine ⟨rfl, rfl, rfl, ?_⟩
  unfold handler
  split_ifs <;> rfl

/-- C10: the not-found handler's hardcoded response coincides with the
unused error taxonomy: its 404 status equals
`AppError::NotFound(path).status_code()`, its message equals the `Display`
rendering of `AppError::NotFound(path)`, and the handler is exactly
`json_response` applied to that status and an envelope of that message. -/
theorem C10_not_found_refines_taxonomy (path : String) :
    (AppError.NotFound path).status_code = 404 ∧
    (AppError.NotFound path).display = "Not found: " ++ path ∧
    not_found_handler path
      = json_response ((AppError.NotFound path).status_code)
          ((ApiResponse.mkError (T := Unit)
            ((AppError.NotFound path).display)).toJson (fun _ => Json.null)) :=
  ⟨rfl, rfl, rfl⟩

end BtlRun
